import Mathlib

/-!
Shallow embedding of `pynetdicom/apps/storescu/storescu.py`.

The script reads one DICOM file, resolves the byte order from the
file-meta TransferSyntaxUID, requests an association, and — when the
association is established — rewrites ambiguous VRs in place, sends a
single C-STORE request, releases the association and quits the AE.

The embedding keeps the source names where Lean allows it:
`byte_order`, `correct_elem`/`correct_dataset` (the VR-correction loop),
and `run` (the top-level control flow of the script).
-/

namespace Storescu

/-- Byte order resolved from the transfer-syntax UID
(`byte_order = 'little' | 'big'` in the source). -/
inductive ByteOrder where
  | little
  | big
deriving DecidableEq, Repr

/-- Source lines 118-122:
`if dataset.file_meta.TransferSyntaxUID in ['1.2.840.10008.1.2', '1.2.840.10008.1.2.1']:
byte_order = 'little' else byte_order = 'big'`. -/
def byte_order (uid : String) : ByteOrder :=
  if uid = "1.2.840.10008.1.2" ∨ uid = "1.2.840.10008.1.2.1" then
    ByteOrder.little
  else
    ByteOrder.big

/-- A pydicom element value as seen by this script: raw value bytes
(each < 256) as parsed from the file, or an integer after the
`US or SS` correction replaced the bytes with `int.from_bytes(...)`. -/
inductive Value where
  | bytes : List Nat → Value
  | int : Nat → Value
deriving DecidableEq, Repr

/-- A data element of the parsed data set: tag `(group, elem)`, a
human-readable description, the VR string code and the value.
The correction loop mutates `VR` and `value` in place; the embedding
returns the updated element instead. -/
structure DataElement where
  group : Nat
  elem : Nat
  description : String
  VR : String
  value : Value
deriving DecidableEq, Repr

/-- Little-endian unsigned decoding: byte 0 is least significant. -/
def intFromBytesLE : List Nat → Nat
  | [] => 0
  | b :: rest => b + 256 * intFromBytesLE rest

/-- Python `int.from_bytes(bs, byteorder)`: accepts a byte string of any
length (including length 0) and decodes it as an unsigned integer in the
given byte order. -/
def int_from_bytes (bo : ByteOrder) (bs : List Nat) : Nat :=
  match bo with
  | ByteOrder.little => intFromBytesLE bs
  | ByteOrder.big => intFromBytesLE bs.reverse

/-- `int.from_bytes(elem.value, ...)` applied to a pydicom value:
succeeds on any byte string; raises `TypeError` (modelled as `none`)
when the value is not bytes-like (already an integer). -/
def pyIntFromBytes (bo : ByteOrder) : Value → Option Nat
  | Value.bytes bs => some (int_from_bytes bo bs)
  | Value.int _ => none

/-- One iteration of the correction loop (source lines 149-165):
`if elem.VR == 'US or SS': elem.VR = 'US';
elem.value = int.from_bytes(elem.value, byteorder=byte_order)`
followed by
`if elem.VR == 'OB or OW': elem.VR = 'OW'`.
The two `if`s run in sequence on the (possibly already updated) element;
`none` models an uncaught `TypeError` from `int.from_bytes`. -/
def correct_elem (bo : ByteOrder) (e : DataElement) : Option DataElement :=
  let step1 : Option DataElement :=
    if e.VR = "US or SS" then
      match pyIntFromBytes bo e.value with
      | some n => some { e with VR := "US", value := Value.int n }
      | none => none
    else
      some e
  match step1 with
  | none => none
  | some e1 =>
      some (if e1.VR = "OB or OW" then { e1 with VR := "OW" } else e1)

/-- The loop `for elem in dataset:` applying `correct_elem` to every
element in order; a `TypeError` anywhere aborts the whole run. -/
def correct_dataset (bo : ByteOrder) : List DataElement → Option (List DataElement)
  | [] => some []
  | e :: es =>
      match correct_elem bo e with
      | none => none
      | some e' =>
          match correct_dataset bo es with
          | none => none
          | some es' => some (e' :: es')

end Storescu

namespace Storescu

/-- Outcome of the `open`/`read_file` block (lines 107-116): a parsed
data set together with its file-meta TransferSyntaxUID, an `IOError`,
or any other exception (file not DICOM). -/
inductive FileOutcome where
  | ok : List DataElement → String → FileOutcome
  | ioError : FileOutcome
  | notDicom : FileOutcome
deriving DecidableEq, Repr

/-- Modelled from the spec: `assoc.send_c_store(dataset)` is library
code not under `src/`. Per the spec it returns a single DIMSE `Status`
code (Success `0x0000`, or a Warning/Failure code) as a value, or fails
with `TransferInterrupted` when the connection drops mid-exchange;
`raiseErr` models that failure as a Python exception propagating out of
the call. -/
inductive SendOutcome where
  | ret : Nat → SendOutcome
  | raiseErr : SendOutcome
deriving DecidableEq, Repr

/-- The externally determined outcomes a run of the script can observe:
the file read, whether `assoc.Established` is true after
`request_association`, and what `send_c_store` does. -/
structure Env where
  file : FileOutcome
  established : Bool
  send : SendOutcome
deriving DecidableEq, Repr

/-- Observable steps of the script, in program order. -/
inductive Event where
  | logError : String → Event
  | exitProcess : Event
  | connectAttempt : Event
  | correctVRs : Event
  | sendCStore : Event
  | release : Event
  | quit : Event
deriving DecidableEq, Repr

/-- What a run leaves behind: the ordered trace of observable steps,
the process exit status, and the in-memory data set at exit (`none`
when the run ended before a data set existed or after a crash). -/
structure RunResult where
  trace : List Event
  exitCode : Nat
  finalDataset : Option (List DataElement)
deriving DecidableEq, Repr

/-- Top-level control flow of the script (lines 107-173), straight
through as written:
- on `IOError` or any other read error: `logger.error(...)` then a bare
  `sys.exit()` — Python exits with status 0 when `sys.exit` gets no
  argument — before any AE or network object is created;
- otherwise `byte_order` is resolved and `ae.request_association`
  attempts the connection;
- `if assoc.Established:` the correction loop runs over the data set
  (an uncaught `TypeError` there crashes with exit status 1), then
  `status = assoc.send_c_store(dataset)`; there is no `try/finally`, so
  if `send_c_store` raises, the exception propagates (exit status 1)
  and neither `assoc.Release()` nor `ae.Quit()` runs; when it returns a
  status, `assoc.Release()` then `ae.Quit()` run and the value bound to
  `status` is never read again;
- when the association is not established, the loop and the send are
  skipped and only `ae.Quit()` runs. -/
def run (env : Env) : RunResult :=
  match env.file with
  | FileOutcome.ioError =>
      { trace := [Event.logError "Cannot read input file", Event.exitProcess],
        exitCode := 0, finalDataset := none }
  | FileOutcome.notDicom =>
      { trace := [Event.logError "File may not be DICOM", Event.exitProcess],
        exitCode := 0, finalDataset := none }
  | FileOutcome.ok ds tsUID =>
      let bo := byte_order tsUID
      if env.established then
        match correct_dataset bo ds with
        | none =>
            { trace := [Event.connectAttempt, Event.correctVRs],
              exitCode := 1, finalDataset := none }
        | some ds' =>
            match env.send with
            | SendOutcome.raiseErr =>
                { trace := [Event.connectAttempt, Event.correctVRs, Event.sendCStore],
                  exitCode := 1, finalDataset := some ds' }
            | SendOutcome.ret _ =>
                { trace := [Event.connectAttempt, Event.correctVRs, Event.sendCStore,
                            Event.release, Event.quit],
                  exitCode := 0, finalDataset := some ds' }
      else
        { trace := [Event.connectAttempt, Event.quit],
          exitCode := 0, finalDataset := some ds }

/-- A concrete `US or SS` element with value bytes `0x00 0x05`, as in
the spec's end-to-end example (tag (0028,0103) Pixel Representation). -/
def elem0005 : DataElement :=
  { group := 0x0028, elem := 0x0103, description := "PixelRepresentation",
    VR := "US or SS", value := Value.bytes [0x00, 0x05] }

/-- A concrete `OB or OW` element (tag (7fe0,0010) Pixel Data). -/
def elemPixelData : DataElement :=
  { group := 0x7fe0, elem := 0x0010, description := "PixelData",
    VR := "OB or OW", value := Value.bytes [1, 2, 3, 4] }

/-- A concrete `US or SS` element whose value has the wrong length for
a 16-bit integer (three bytes instead of two). -/
def elemWrongLen : DataElement :=
  { group := 0x0028, elem := 0x0103, description := "PixelRepresentation",
    VR := "US or SS", value := Value.bytes [1, 2, 3] }

lemma correct_elem_us_ss (bo : ByteOrder) (e : DataElement) (bs : List Nat)
    (hVR : e.VR = "US or SS") (hval : e.value = Value.bytes bs) :
    correct_elem bo e =
      some { e with VR := "US", value := Value.int (int_from_bytes bo bs) } := by
  simp [correct_elem, hVR, hval, pyIntFromBytes]

lemma correct_elem_ob_ow (bo : ByteOrder) (e : DataElement)
    (hVR : e.VR = "OB or OW") :
    correct_elem bo e = some { e with VR := "OW" } := by
  have hne : e.VR ≠ "US or SS" := by rw [hVR]; decide
  simp [correct_elem, hne, hVR]

/-- `correct_elem` fixes its own outputs: any element it produces is
left untouched by a second application. -/
lemma correct_elem_fixpoint (bo : ByteOrder) (e e' : DataElement)
    (h : correct_elem bo e = some e') : correct_elem bo e' = some e' := by
  by_cases h1 : e.VR = "US or SS"
  · cases hval : e.value with
    | bytes bs =>
        rw [correct_elem_us_ss bo e bs h1 hval] at h
        have he' : e' = { e with VR := "US", value := Value.int (int_from_bytes bo bs) } := by
          injection h with h; exact h.symm
        subst he'
        simp [correct_elem, pyIntFromBytes]
    | int n =>
        simp [correct_elem, h1, hval, pyIntFromBytes] at h
  · by_cases h2 : e.VR = "OB or OW"
    · rw [correct_elem_ob_ow bo e h2] at h
      have he' : e' = { e with VR := "OW" } := by injection h with h; exact h.symm
      subst he'
      simp [correct_elem]
    · simp [correct_elem, h1, h2] at h
      subst h
      simp [correct_elem, h1, h2]

/-- Elementwise fixpoints lift to the whole loop. -/
lemma correct_dataset_fixpoint (bo : ByteOrder) :
    ∀ ds ds', correct_dataset bo ds = some ds' → correct_dataset bo ds' = some ds' := by
  intro ds
  induction ds with
  | nil =>
      intro ds' h
      simp [correct_dataset] at h
      subst h
      simp [correct_dataset]
  | cons e es ih =>
      intro ds' h
      simp only [correct_dataset] at h
      cases he : correct_elem bo e with
      | none => rw [he] at h; exact absurd h (by simp)
      | some e' =>
          rw [he] at h
          cases hes : correct_dataset bo es with
          | none => rw [hes] at h; exact absurd h (by simp)
          | some es' =>
              rw [hes] at h
              simp at h
              subst h
              simp only [correct_dataset, correct_elem_fixpoint bo e e' he, ih es' hes]

/-- The run observed when `send_c_store` fails with `TransferInterrupted`
after an established association. -/
def envSendRaises : Env :=
  { file := FileOutcome.ok [elemPixelData] "1.2.840.10008.1.2",
    established := true, send := SendOutcome.raiseErr }

/-- The run observed when the input file is unreadable (`IOError`). -/
def envUnreadable : Env :=
  { file := FileOutcome.ioError, established := false, send := SendOutcome.ret 0 }

/-- Claim C1: every element whose VR is the ambiguous placeholder
"US or SS" (holding raw value bytes) comes out of the corrector with VR
"US" and with the unsigned integer decoded from the original bytes in
the resolved byte order; all other fields are unchanged. -/
theorem C1_us_or_ss_correction (bo : ByteOrder) (e : DataElement) (bs : List Nat)
    (hVR : e.VR = "US or SS") (hval : e.value = Value.bytes bs) :
    correct_elem bo e =
      some { e with VR := "US", value := Value.int (int_from_bytes bo bs) } :=
  correct_elem_us_ss bo e bs hVR hval

/-- Witness for C1 at the concrete element `elem0005` under little-endian. -/
theorem C1_witness :
    elem0005.VR = "US or SS" ∧ elem0005.value = Value.bytes [0x00, 0x05] ∧
    correct_elem ByteOrder.little elem0005 =
      some { elem0005 with
             VR := "US",
             value := Value.int (int_from_bytes ByteOrder.little [0x00, 0x05]) } :=
  ⟨rfl, rfl, C1_us_or_ss_correction ByteOrder.little elem0005 [0x00, 0x05] rfl rfl⟩

/-- Claim C2: the resolver maps `1.2.840.10008.1.2` and
`1.2.840.10008.1.2.1` to little-endian and every other UID string to
big-endian. -/
theorem C2_byte_order_resolution :
    byte_order "1.2.840.10008.1.2" = ByteOrder.little ∧
    byte_order "1.2.840.10008.1.2.1" = ByteOrder.little ∧
    ∀ uid : String, uid ≠ "1.2.840.10008.1.2" → uid ≠ "1.2.840.10008.1.2.1" →
      byte_order uid = ByteOrder.big := by
  refine ⟨by simp [byte_order], by simp [byte_order], ?_⟩
  intro uid h1 h2
  simp [byte_order, h1, h2]

/-- Witness for C2's universally quantified part at the explicit
big-endian UID `1.2.840.10008.1.2.2`. -/
theorem C2_witness :
    byte_order "1.2.840.10008.1.2.2" = ByteOrder.big :=
  C2_byte_order_resolution.2.2 "1.2.840.10008.1.2.2" (by decide) (by decide)

/-- Claim C3: every element whose VR is "OB or OW" comes out of the
corrector with VR "OW" and every other field — in particular the value
bytes — exactly as it went in. -/
theorem C3_ob_or_ow_correction (bo : ByteOrder) (e : DataElement)
    (hVR : e.VR = "OB or OW") :
    correct_elem bo e = some { e with VR := "OW" } :=
  correct_elem_ob_ow bo e hVR

/-- Witness for C3 at the concrete pixel-data element. -/
theorem C3_witness :
    elemPixelData.VR = "OB or OW" ∧
    correct_elem ByteOrder.little elemPixelData =
      some { elemPixelData with VR := "OW" } :=
  ⟨rfl, C3_ob_or_ow_correction ByteOrder.little elemPixelData rfl⟩

/-- Claim C4: the corrector is idempotent — applying the correction
loop to its own output changes nothing, so running it twice equals
running it once (including the failure case, which propagates). -/
theorem C4_corrector_idempotent (bo : ByteOrder) (ds : List DataElement) :
    Option.bind (correct_dataset bo ds) (correct_dataset bo) = correct_dataset bo ds := by
  cases h : correct_dataset bo ds with
  | none => rfl
  | some ds' => simpa using correct_dataset_fixpoint bo ds ds' h

/-- Claim C5, evaluated at the failing input: when the association is
established and `send_c_store` raises (connection dropped mid-exchange),
the straight-line script has no `try/finally`, so the send step is
reached but neither `assoc.Release()` nor `ae.Quit()` ever runs —
teardown is skipped, contradicting the guaranteed-release claim. -/
theorem C5_release_skipped_when_send_raises :
    Event.sendCStore ∈ (run envSendRaises).trace ∧
    Event.release ∉ (run envSendRaises).trace ∧
    Event.quit ∉ (run envSendRaises).trace := by decide

/-- Counterexample to claim C6: a "US or SS" element whose value has
the wrong length for a 16-bit integer (three bytes) is not rejected —
`int.from_bytes` accepts any length, so the corrector produces a
corrected element (`some`, never a failure). -/
theorem C6_counterexample :
    (correct_elem ByteOrder.little elemWrongLen).isSome = true ∧
    correct_elem ByteOrder.little elemWrongLen =
      some { elemWrongLen with VR := "US", value := Value.int 197121 } := by decide

/-- Claim C6 as amended: for a "US or SS" element whose value bytes
have any length other than the expected two, the corrector does not
fail; it decodes the bytes as an unsigned integer of that length and
produces VR "US". -/
theorem C6_amended_no_failure (bo : ByteOrder) (e : DataElement) (bs : List Nat)
    (hVR : e.VR = "US or SS") (hval : e.value = Value.bytes bs)
    (hlen : bs.length ≠ 2) :
    correct_elem bo e =
      some { e with VR := "US", value := Value.int (int_from_bytes bo bs) } :=
  correct_elem_us_ss bo e bs hVR hval

/-- Witness for the amended C6 at the three-byte element. -/
theorem C6_amended_witness :
    elemWrongLen.VR = "US or SS" ∧ elemWrongLen.value = Value.bytes [1, 2, 3] ∧
    ([1, 2, 3] : List Nat).length ≠ 2 ∧
    correct_elem ByteOrder.little elemWrongLen =
      some { elemWrongLen with
             VR := "US",
             value := Value.int (int_from_bytes ByteOrder.little [1, 2, 3]) } :=
  ⟨rfl, rfl, by decide,
    C6_amended_no_failure ByteOrder.little elemWrongLen [1, 2, 3] rfl rfl (by decide)⟩

/-- Claim C7, evaluated at the failing input: on an unreadable file the
script logs an error and exits before any connection attempt — but via
a bare `sys.exit()`, whose process exit status is 0, not non-zero. -/
theorem C7_exit_status_zero_on_unreadable_file :
    (run envUnreadable).exitCode = 0 ∧
    Event.logError "Cannot read input file" ∈ (run envUnreadable).trace ∧
    Event.connectAttempt ∉ (run envUnreadable).trace := by decide

/-- Counterexample to claim C8: correcting the two bytes `0x00 0x05`
under little-endian yields the integer 1280 (`0x00 + 0x05·256`), not 5
as the claim states. -/
theorem C8_counterexample :
    Option.map DataElement.value (correct_elem ByteOrder.little elem0005) =
      some (Value.int 1280) ∧ Value.int 1280 ≠ Value.int 5 := by decide

/-- Claim C8 as amended: an element with VR "US or SS" holding the two
value bytes `0x00 0x05` under resolved little-endian byte order is
corrected to VR "US" with integer value 1280. -/
theorem C8_amended_value_1280 :
    correct_elem ByteOrder.little elem0005 =
      some { elem0005 with VR := "US", value := Value.int 1280 } := by decide

/-- Claim C9: whenever the association is not established, no C-STORE
request is ever sent and the parsed data set is never mutated — the
correction loop only runs after establishment, so every element keeps
the VR and value it had after parsing. -/
theorem C9_no_send_no_mutation_when_not_established
    (ds : List DataElement) (tsUID : String) (send : SendOutcome) :
    (run { file := FileOutcome.ok ds tsUID, established := false, send := send }).finalDataset
        = some ds ∧
    Event.sendCStore ∉
      (run { file := FileOutcome.ok ds tsUID, established := false, send := send }).trace := by
  refine ⟨rfl, ?_⟩
  simp [run]

/-- Claim C10: the status value returned by `send_c_store` has no
influence on anything that follows — two runs identical except for the
returned status code produce identical traces, exit status and final
data set; the status is assigned and never read. -/
theorem C10_status_noninterference (f : FileOutcome) (est : Bool) (s₁ s₂ : Nat) :
    run { file := f, established := est, send := SendOutcome.ret s₁ } =
    run { file := f, established := est, send := SendOutcome.ret s₂ } := by
  cases f with
  | ioError => rfl
  | notDicom => rfl
  | ok ds tsUID =>
      cases est with
      | false => rfl
      | true => simp only [run]

end Storescu
